import Mathlib

set_option maxHeartbeats 1000000

/-
Verification of the IIO stack / PCI domain resource code of
src/soc/intel/xeon_sp/chip_common.c (coreboot Xeon-SP common chip code).

The C file is embedded shallowly:
  - the per-stack hardware descriptor STACK_RES and the hand-off blob
    IIO_UDS become Lean structures (arrays become index functions);
  - the mutable per-device resource list becomes an explicit
    List Resource threaded through the read-resources functions;
  - machine integers (UINT16/UINT32/UINT64 descriptor fields) become Nat:
    every subtraction performed by the code is guarded by a strict
    comparison that rules out wrap-around, so Nat subtraction agrees with
    the unsigned machine subtraction on all reachable values;
  - the global hand-off snapshot (get_iio_uds) becomes an explicit
    Option IIO_UDS argument, none standing for a NULL snapshot.
Entities that live outside this repository (the resource-flag bit
definitions, the packed xeon_domain_path union layout, the generic
new_resource allocator, the FSP stack-count bound) are modelled from the
spec and marked as such in their doc comments.
-/

/-- Kind of an address-space window: I/O port space or memory space. -/
inductive ResKind where
| ioKind
| memKind
deriving DecidableEq, Repr

/-- Modelled from the spec: the resource flag word of the generic resource
header (outside this repository; the code uses the IORESOURCE_IO,
IORESOURCE_MEM, IORESOURCE_SUBTRACTIVE and IORESOURCE_ASSIGNED bits),
decomposed into its three independent components: the window kind, the
subtractive-decode marker and the assigned marker. -/
structure ResFlags where
  kind : ResKind
  subtractive : Bool
  assigned : Bool
deriving DecidableEq, Repr

/-- One entry of a device's resource list (generic struct resource):
an address window with its per-device index, base, size, limit and flags. -/
structure Resource where
  index : Nat
  base : Nat
  size : Nat
  limit : Nat
  flags : ResFlags
deriving DecidableEq, Repr

/-- Modelled from the spec: the generic allocator new_resource(dev, index)
reuses the device's existing resource carrying the given index when present
and appends a fresh one otherwise; the calling code then overwrites base,
limit, size and flags unconditionally.  One emission step of the window
calculators therefore transforms the device's resource list by this
index-keyed upsert. -/
def set_resource (rs : List Resource) (r : Resource) : List Resource :=
  if rs.any fun x => x.index == r.index then
    rs.map fun x => if x.index == r.index then r else x
  else
    rs ++ [r]

/-- Per-stack hardware descriptor (FSP STACK_RES): bus-number range, the
stack's total I/O and memory windows, and the sub-windows reserved for
standard PCI devices.  Field names follow the source. -/
structure STACK_RES where
  BusBase : Nat
  BusLimit : Nat
  IoBase : Nat
  IoLimit : Nat
  Mmio32Base : Nat
  Mmio32Limit : Nat
  Mmio64Base : Nat
  Mmio64Limit : Nat
  PciResourceIoBase : Nat
  PciResourceIoLimit : Nat
  PciResourceMem32Base : Nat
  PciResourceMem32Limit : Nat
  PciResourceMem64Base : Nat
  PciResourceMem64Limit : Nat
deriving DecidableEq, Repr

/-- The immutable hand-off blob (IIO_UDS).  numofIIOs models
hob->PlatformData.numofIIO (the trailing letters of the source name force
the slight renaming here); stack_res models the two-dimensional array
hob->PlatformData.IIO_resource[socket].StackRes[stack] as an index
function. -/
structure IIO_UDS where
  numofIIOs : Nat
  stack_res : Nat → Nat → STACK_RES

/-- The (socket, stack) part of a xeon domain path, as carried by the
walker before the bus number is added. -/
structure xeon_domain_path where
  socket : Nat
  stack : Nat
deriving DecidableEq, Repr

/-- Modelled from the spec: the packed domain-path scalar of the union
xeon_domain_path (header outside this repository), a byte-packed
socket/stack/bus key with the bus number in the low byte, produced by
init_xeon_domain_path. -/
def domain_path_of (socket stack bus : Nat) : Nat :=
  socket % 256 * 65536 + stack % 256 * 256 + bus % 256

/-- Bus-base byte of a packed domain-path value. -/
def dn_bus (d : Nat) : Nat := d % 256

/-- Stack byte of a packed domain-path value. -/
def dn_stack (d : Nat) : Nat := d / 256 % 256

/-- Socket byte of a packed domain-path value. -/
def dn_socket (d : Nat) : Nat := d / 65536 % 256

/-- domain_to_stack_res: looks the domain's descriptor up in the hand-off
blob; the returned pointer into the per-socket stack array is modelled as
an Option, none standing for a NULL pointer.  The C function asserts that
the snapshot handle is non-NULL and then returns the address of an array
element, which is never NULL; the none branch here corresponds to the
(asserted-away) NULL snapshot. -/
def domain_to_stack_res (hob : Option IIO_UDS) (dev : Nat) : Option STACK_RES :=
  match hob with
  | none => none
  | some h => some (h.stack_res (dn_socket dev) (dn_stack dev))

/-- The fixed legacy I/O window emitted for domain 0: range 0 - 0xfff,
size 0x1000, I/O kind, subtractive-decode and assigned flags set. -/
def legacy_window : Resource :=
  { index := 0, base := 0, size := 0x1000, limit := 0xfff,
    flags := { kind := ResKind.ioKind, subtractive := true, assigned := true } }

/-- Body of iio_pci_domain_read_resources after the descriptor lookup
succeeded: domain is dev->path.domain.domain, sr the stack descriptor,
rs0 the device's resource list on entry.  Each branch mirrors one
emission block of the C code, threading the running resource index. -/
def iio_pci_domain_read_resources_on (domain : Nat) (sr : STACK_RES)
    (rs0 : List Resource) : List Resource :=
  let p0 : List Resource × Nat :=
    if domain = 0 then
      (set_resource rs0 legacy_window, 1)
    else (rs0, 0)
  let p1 : List Resource × Nat :=
    if sr.PciResourceIoBase < sr.PciResourceIoLimit then
      (set_resource p0.1
        { index := p0.2, base := sr.PciResourceIoBase, limit := sr.PciResourceIoLimit,
          size := sr.PciResourceIoLimit - sr.PciResourceIoBase + 1,
          flags := { kind := ResKind.ioKind, subtractive := false, assigned := true } },
       p0.2 + 1)
    else p0
  let p2 : List Resource × Nat :=
    if sr.PciResourceMem32Base < sr.PciResourceMem32Limit then
      (set_resource p1.1
        { index := p1.2, base := sr.PciResourceMem32Base, limit := sr.PciResourceMem32Limit,
          size := sr.PciResourceMem32Limit - sr.PciResourceMem32Base + 1,
          flags := { kind := ResKind.memKind, subtractive := false, assigned := true } },
       p1.2 + 1)
    else p1
  let p3 : List Resource × Nat :=
    if sr.PciResourceMem64Base < sr.PciResourceMem64Limit then
      (set_resource p2.1
        { index := p2.2, base := sr.PciResourceMem64Base, limit := sr.PciResourceMem64Limit,
          size := sr.PciResourceMem64Limit - sr.PciResourceMem64Base + 1,
          flags := { kind := ResKind.memKind, subtractive := false, assigned := true } },
       p2.2 + 1)
    else p2
  p3.1

/-- iio_pci_domain_read_resources: the standard-role window calculator.
Looks the descriptor up, returns with the device's resource list
unchanged when the lookup yields NULL, and otherwise runs the emission
body. -/
def iio_pci_domain_read_resources (hob : Option IIO_UDS) (dev : Nat)
    (rs : List Resource) : List Resource :=
  match domain_to_stack_res hob dev with
  | none => rs
  | some sr => iio_pci_domain_read_resources_on dev sr rs

/-- Body of iio_cxl_domain_read_resources after the descriptor lookup
succeeded: emits, per address class, the slice of the stack's total
window that lies below the standard PCI sub-window. -/
def iio_cxl_domain_read_resources_on (sr : STACK_RES)
    (rs0 : List Resource) : List Resource :=
  let p1 : List Resource × Nat :=
    if sr.IoBase < sr.PciResourceIoBase then
      (set_resource rs0
        { index := 0, base := sr.IoBase, limit := sr.PciResourceIoBase - 1,
          size := sr.PciResourceIoBase - 1 - sr.IoBase + 1,
          flags := { kind := ResKind.ioKind, subtractive := false, assigned := true } },
       1)
    else (rs0, 0)
  let p2 : List Resource × Nat :=
    if sr.Mmio32Base < sr.PciResourceMem32Base then
      (set_resource p1.1
        { index := p1.2, base := sr.Mmio32Base, limit := sr.PciResourceMem32Base - 1,
          size := sr.PciResourceMem32Base - 1 - sr.Mmio32Base + 1,
          flags := { kind := ResKind.memKind, subtractive := false, assigned := true } },
       p1.2 + 1)
    else p1
  let p3 : List Resource × Nat :=
    if sr.Mmio64Base < sr.PciResourceMem64Base then
      (set_resource p2.1
        { index := p2.2, base := sr.Mmio64Base, limit := sr.PciResourceMem64Base - 1,
          size := sr.PciResourceMem64Base - 1 - sr.Mmio64Base + 1,
          flags := { kind := ResKind.memKind, subtractive := false, assigned := true } },
       p2.2 + 1)
    else p2
  p3.1

/-- iio_cxl_domain_read_resources: the CXL-extension-role window
calculator, with the same lookup-and-guard wrapper as the standard
role. -/
def iio_cxl_domain_read_resources (hob : Option IIO_UDS) (dev : Nat)
    (rs : List Resource) : List Resource :=
  match domain_to_stack_res hob dev with
  | none => rs
  | some sr => iio_cxl_domain_read_resources_on sr rs

/-- The device_operations table, restricted to the read_resources entry
point; set_resources, scan_bus and the ACPI hooks delegate to generic
machinery outside this core and are omitted. -/
structure device_operations where
  read_resources : Option IIO_UDS → Nat → List Resource → List Resource

/-- noop_read_resources of the generic device layer: leaves the device's
resource list untouched. -/
def noop_read_resources : Option IIO_UDS → Nat → List Resource → List Resource :=
  fun _ _ rs => rs

/-- Operations of IIO PCIe host-bridge domains: standard-role window
calculator. -/
def iio_pcie_domain_ops : device_operations :=
  { read_resources := iio_pci_domain_read_resources }

/-- Operations of UBOX domains: UBOX devices have no resources, so the
read-resources behavior is a no-op. -/
def ubox_pcie_domain_ops : device_operations :=
  { read_resources := noop_read_resources }

/-- Operations of CXL extension domains: CXL-extension-role window
calculator. -/
def iio_cxl_domain_ops : device_operations :=
  { read_resources := iio_cxl_domain_read_resources }

/-- Modelled from the spec: the variant labels handed to the ACPI naming
subsystem (DOMAIN_TYPE_PCIE, DOMAIN_TYPE_CXL, DOMAIN_TYPE_UBX0 and
DOMAIN_TYPE_UBX1 of the header outside this repository), kept abstract as
four distinct labels. -/
inductive DomainType where
| PCIE
| CXL
| UBX0
| UBX1
deriving DecidableEq, Repr

/-- A domain node created by the builder, together with the bus object
attached to it: packed domain-path key, operations table, ACPI label and
the secondary / subordinate / max_subordinate fields of the attached
bus. -/
structure device_domain where
  dpath : Nat
  ops : device_operations
  acpi_name : DomainType
  secondary : Nat
  subordinate : Nat
  max_subordinate : Nat

/-- soc_create_domains: the domain-builder primitive.  Creates the domain
node keyed by the packed (socket, stack, bus_base) path, installs the
operations table and the ACPI label, and initialises the attached bus with
secondary = subordinate = bus_base and max_subordinate = bus_limit.
Allocation failure is fatal in the C code (die) and outside this model;
the upstream-bus argument only selects the attachment point and carries no
data used by the claims. -/
def soc_create_domains (dp : xeon_domain_path) (bus_base bus_limit : Nat)
    (t : DomainType) (ops : device_operations) : device_domain :=
  { dpath := domain_path_of dp.socket dp.stack bus_base,
    ops := ops,
    acpi_name := t,
    secondary := bus_base,
    subordinate := bus_base,
    max_subordinate := bus_limit }

/-- soc_create_pcie_domains: one standard PCIe domain spanning the whole
bus range of the stack. -/
def soc_create_pcie_domains (dp : xeon_domain_path) (sr : STACK_RES) :
    List device_domain :=
  [soc_create_domains dp sr.BusBase sr.BusLimit DomainType.PCIE iio_pcie_domain_ops]

/-- soc_create_ubox_domains: two single-bus UBOX domains on BusBase and
BusLimit.  The C code asserts BusBase + 1 == BusLimit before building;
the assertion is carried as a hypothesis of the theorems about this
function. -/
def soc_create_ubox_domains (dp : xeon_domain_path) (sr : STACK_RES) :
    List device_domain :=
  [soc_create_domains dp sr.BusBase sr.BusBase DomainType.UBX0 ubox_pcie_domain_ops,
   soc_create_domains dp sr.BusLimit sr.BusLimit DomainType.UBX1 ubox_pcie_domain_ops]

/-- soc_create_cxl_domains: the single-bus PCIe RCiEP domain on BusBase
followed by the CXL 1.1 end-point domain on BusBase + 1 .. BusLimit.  The
C code asserts BusBase + 1 <= BusLimit; the assertion is carried as a
hypothesis of the theorems about this function. -/
def soc_create_cxl_domains (dp : xeon_domain_path) (sr : STACK_RES) :
    List device_domain :=
  [soc_create_domains dp sr.BusBase sr.BusBase DomainType.PCIE iio_pcie_domain_ops,
   soc_create_domains dp (sr.BusBase + 1) sr.BusLimit DomainType.CXL iio_cxl_domain_ops]

/-- Modelled from the spec: the per-socket stack-slot count
MAX_LOGIC_IIO_STACK of the FSP header (outside this repository).  The
claims hold for any positive value; 8 is used as a representative. -/
def MAX_LOGIC_IIO_STACK : Nat := 8

/-- The walker's external collaborators: the two relevant build-time
configuration switches, the four stack classifiers of soc_util (outside
this repository) and the external accelerator-domain builder
soc_create_ioat_domains, all kept abstract. -/
structure soc_env where
  has_cxl : Bool
  have_ioat : Bool
  is_ubox_stack_res : STACK_RES → Bool
  is_iio_cxl_stack_res : STACK_RES → Bool
  is_pcie_iio_stack_res : STACK_RES → Bool
  is_ioat_iio_stack_res : STACK_RES → Bool
  soc_create_ioat_domains : xeon_domain_path → STACK_RES → List device_domain

/-- Loop body of attach_iio_stacks for one stack slot: skip the slot when
BusBase > BusLimit, otherwise classify the descriptor and dispatch to the
matching builder (falling through to nothing when no classifier
matches). -/
def stack_domains (env : soc_env) (dn : xeon_domain_path) (ri : STACK_RES) :
    List device_domain :=
  if ri.BusBase > ri.BusLimit then []
  else if env.is_ubox_stack_res ri then soc_create_ubox_domains dn ri
  else if env.has_cxl && env.is_iio_cxl_stack_res ri then soc_create_cxl_domains dn ri
  else if env.is_pcie_iio_stack_res ri then soc_create_pcie_domains dn ri
  else if env.have_ioat && env.is_ioat_iio_stack_res ri then
    env.soc_create_ioat_domains dn ri
  else []

/-- All (socket, stack) slot pairs visited by the walker, in its nested
loop order: sockets 0 .. numofIIO - 1 outer, stacks
0 .. MAX_LOGIC_IIO_STACK - 1 inner. -/
def stack_pairs (h : IIO_UDS) : List (Nat × Nat) :=
  (List.range h.numofIIOs).flatMap fun s =>
    (List.range MAX_LOGIC_IIO_STACK).map fun x => (s, x)

/-- attach_iio_stacks: fetches the hand-off snapshot (an absent snapshot
yields an empty walk) and concatenates, over every socket and stack slot
in loop order, the domains created for that slot. -/
def attach_iio_stacks (env : soc_env) (hob : Option IIO_UDS) :
    List device_domain :=
  match hob with
  | none => []
  | some h =>
    (stack_pairs h).flatMap fun p =>
      stack_domains env { socket := p.1, stack := p.2 } (h.stack_res p.1 p.2)

/-- Projection of a resource onto the data the spec's window statements
talk about: base, limit, size and flags (dropping the allocator index). -/
def winData (r : Resource) : Nat × Nat × Nat × ResFlags :=
  (r.base, r.limit, r.size, r.flags)

/-- One optional standard-role discovered window: present exactly when
base < limit, spanning the inclusive range base .. limit, carried at
allocator index i. -/
def std_win_part (base limit : Nat) (k : ResKind) (i : Nat) : List Resource :=
  if base < limit then
    [{ index := i, base := base, limit := limit, size := limit - base + 1,
       flags := { kind := k, subtractive := false, assigned := true } }]
  else []

/-- One optional CXL-extension window: present exactly when the total
window base tbase lies strictly below the standard sub-window base pbase,
spanning tbase .. pbase - 1, carried at allocator index i. -/
def cxl_win_part (tbase pbase : Nat) (k : ResKind) (i : Nat) : List Resource :=
  if tbase < pbase then
    [{ index := i, base := tbase, limit := pbase - 1,
       size := pbase - 1 - tbase + 1,
       flags := { kind := k, subtractive := false, assigned := true } }]
  else []

/-- Closed form of the standard-role calculator on an empty resource
list: the optional legacy window followed by the three optional
discovered windows in class order, with consecutive indices. -/
def pci_windows (domain : Nat) (sr : STACK_RES) : List Resource :=
  let l0 := if domain = 0 then [legacy_window] else []
  let l1 := std_win_part sr.PciResourceIoBase sr.PciResourceIoLimit
    ResKind.ioKind l0.length
  let l2 := std_win_part sr.PciResourceMem32Base sr.PciResourceMem32Limit
    ResKind.memKind (l0.length + l1.length)
  let l3 := std_win_part sr.PciResourceMem64Base sr.PciResourceMem64Limit
    ResKind.memKind (l0.length + l1.length + l2.length)
  l0 ++ l1 ++ l2 ++ l3

/-- Closed form of the CXL-extension calculator on an empty resource
list: the three optional extension windows in class order. -/
def cxl_windows (sr : STACK_RES) : List Resource :=
  let l1 := cxl_win_part sr.IoBase sr.PciResourceIoBase ResKind.ioKind 0
  let l2 := cxl_win_part sr.Mmio32Base sr.PciResourceMem32Base
    ResKind.memKind l1.length
  let l3 := cxl_win_part sr.Mmio64Base sr.PciResourceMem64Base
    ResKind.memKind (l1.length + l2.length)
  l1 ++ l2 ++ l3

lemma pci_on_nil_eq (domain : Nat) (sr : STACK_RES) :
    iio_pci_domain_read_resources_on domain sr [] = pci_windows domain sr := by
  unfold iio_pci_domain_read_resources_on pci_windows std_win_part
  split_ifs <;> rfl

lemma cxl_on_nil_eq (sr : STACK_RES) :
    iio_cxl_domain_read_resources_on sr [] = cxl_windows sr := by
  unfold iio_cxl_domain_read_resources_on cxl_windows cxl_win_part
  split_ifs <;> rfl

/-- Follows the spec's words for the standard role: for each address
class in the fixed order I/O, memory-32, memory-64, a window is listed
exactly when PciResourceXBase < PciResourceXLimit, spanning
[PciResourceXBase, PciResourceXLimit], with size = limit - base + 1 and
the assigned flag set (subtractive clear). -/
def spec_std_windows (sr : STACK_RES) : List (Nat × Nat × Nat × ResFlags) :=
  (if sr.PciResourceIoBase < sr.PciResourceIoLimit then
    [(sr.PciResourceIoBase, sr.PciResourceIoLimit,
      sr.PciResourceIoLimit - sr.PciResourceIoBase + 1,
      ({ kind := ResKind.ioKind, subtractive := false, assigned := true } : ResFlags))]
   else []) ++
  (if sr.PciResourceMem32Base < sr.PciResourceMem32Limit then
    [(sr.PciResourceMem32Base, sr.PciResourceMem32Limit,
      sr.PciResourceMem32Limit - sr.PciResourceMem32Base + 1,
      ({ kind := ResKind.memKind, subtractive := false, assigned := true } : ResFlags))]
   else []) ++
  (if sr.PciResourceMem64Base < sr.PciResourceMem64Limit then
    [(sr.PciResourceMem64Base, sr.PciResourceMem64Limit,
      sr.PciResourceMem64Limit - sr.PciResourceMem64Base + 1,
      ({ kind := ResKind.memKind, subtractive := false, assigned := true } : ResFlags))]
   else [])

/-- Follows the spec's words for the CXL-extension role: for each
address class in the fixed order I/O, memory-32, memory-64, a window is
listed exactly when the stack's total window base TotalXBase lies
strictly below PciResourceXBase, spanning
[TotalXBase, PciResourceXBase - 1], with size = limit - base + 1 and the
assigned flag set. -/
def spec_cxl_windows (sr : STACK_RES) : List (Nat × Nat × Nat × ResFlags) :=
  (if sr.IoBase < sr.PciResourceIoBase then
    [(sr.IoBase, sr.PciResourceIoBase - 1,
      sr.PciResourceIoBase - 1 - sr.IoBase + 1,
      ({ kind := ResKind.ioKind, subtractive := false, assigned := true } : ResFlags))]
   else []) ++
  (if sr.Mmio32Base < sr.PciResourceMem32Base then
    [(sr.Mmio32Base, sr.PciResourceMem32Base - 1,
      sr.PciResourceMem32Base - 1 - sr.Mmio32Base + 1,
      ({ kind := ResKind.memKind, subtractive := false, assigned := true } : ResFlags))]
   else []) ++
  (if sr.Mmio64Base < sr.PciResourceMem64Base then
    [(sr.Mmio64Base, sr.PciResourceMem64Base - 1,
      sr.PciResourceMem64Base - 1 - sr.Mmio64Base + 1,
      ({ kind := ResKind.memKind, subtractive := false, assigned := true } : ResFlags))]
   else [])

/-- C1: for every standard-role domain, the discovered (non-subtractive)
windows produced by iio_pci_domain_read_resources on a fresh device are,
per address class in the order I/O, memory-32, memory-64, emitted exactly
when PciResourceXBase < PciResourceXLimit, and each spans
[PciResourceXBase, PciResourceXLimit] with size = limit - base + 1 and
the assigned flag set. -/
theorem c1_std_window_emission (domain : Nat) (sr : STACK_RES) :
    ((iio_pci_domain_read_resources_on domain sr []).filter
        (fun r => !r.flags.subtractive)).map winData = spec_std_windows sr := by
  rw [pci_on_nil_eq]
  unfold pci_windows std_win_part spec_std_windows
  split_ifs <;> rfl

/-- C2: for every CXL-extension-role domain, the windows produced by
iio_cxl_domain_read_resources on a fresh device are, per address class in
the order I/O, memory-32, memory-64, emitted exactly when
TotalXBase < PciResourceXBase, and each spans
[TotalXBase, PciResourceXBase - 1] with size = limit - base + 1 and the
assigned flag set. -/
theorem c2_cxl_window_emission (sr : STACK_RES) :
    (iio_cxl_domain_read_resources_on sr []).map winData = spec_cxl_windows sr := by
  rw [cxl_on_nil_eq]
  unfold cxl_windows cxl_win_part spec_cxl_windows
  split_ifs <;> rfl

/-- A descriptor with every field zero, used as the base of concrete
test descriptors. -/
def zero_stack_res : STACK_RES :=
  { BusBase := 0, BusLimit := 0, IoBase := 0, IoLimit := 0,
    Mmio32Base := 0, Mmio32Limit := 0, Mmio64Base := 0, Mmio64Limit := 0,
    PciResourceIoBase := 0, PciResourceIoLimit := 0,
    PciResourceMem32Base := 0, PciResourceMem32Limit := 0,
    PciResourceMem64Base := 0, PciResourceMem64Limit := 0 }

/-- C3 counterexample: the packed domain path of socket 1, stack 0,
bus-base 0 encodes bus-base 0, yet the standard-role calculator does not
put the legacy I/O window at the head of its output for that domain (with
the all-zero descriptor it emits nothing at all), because the code tests
the whole packed path value against 0, not the bus-base byte. -/
theorem c3_counterexample :
    dn_bus (domain_path_of 1 0 0) = 0 ∧
    (iio_pci_domain_read_resources_on (domain_path_of 1 0 0) zero_stack_res []).head?
      ≠ some legacy_window := by
  constructor
  · rfl
  · decide

/-- C3 (amended): the window sequence of the standard-role calculator
begins with the fixed legacy I/O window 0 - 0xfff (subtractive-decode and
assigned flags set, ahead of any discovered window) exactly when the
domain's entire packed domain-path value is 0, i.e. socket 0, stack 0 and
bus-base 0 - not for every bus-base-0 domain. -/
theorem c3_legacy_first_iff_domain_zero (domain : Nat) (sr : STACK_RES) :
    (iio_pci_domain_read_resources_on domain sr []).head? = some legacy_window
      ↔ domain = 0 := by
  rw [pci_on_nil_eq]
  unfold pci_windows std_win_part
  split_ifs <;> simp_all [legacy_window]

lemma std_win_part_length (b l : Nat) (k : ResKind) (i : Nat) :
    (std_win_part b l k i).length ≤ 1 := by
  unfold std_win_part; split <;> simp

lemma mem_std_win_part {r : Resource} {b l : Nat} {k : ResKind} {i : Nat}
    (h : r ∈ std_win_part b l k i) :
    r.flags.kind = k ∧ r.flags.subtractive = false ∧ r.base = b ∧ r.limit = l := by
  unfold std_win_part at h
  split at h <;> simp_all

lemma cxl_win_part_length (tb pb : Nat) (k : ResKind) (i : Nat) :
    (cxl_win_part tb pb k i).length ≤ 1 := by
  unfold cxl_win_part; split <;> simp

lemma mem_cxl_win_part {r : Resource} {tb pb : Nat} {k : ResKind} {i : Nat}
    (h : r ∈ cxl_win_part tb pb k i) :
    r.flags.kind = k ∧ r.flags.subtractive = false ∧ r.base = tb ∧ r.limit = pb - 1 := by
  unfold cxl_win_part at h
  split at h <;> simp_all

/-- A descriptor whose only non-trivial range is the standard I/O
sub-window 0x2000 - 0x3fff. -/
def sr_io_window : STACK_RES :=
  { zero_stack_res with PciResourceIoBase := 0x2000, PciResourceIoLimit := 0x3fff }

/-- C4 counterexample: for domain 0 with an I/O sub-window present, the
standard-role calculator emits two windows of the I/O address class (the
legacy subtractive window and the discovered one), so the produced
sequence does not contain at most one window per address class. -/
theorem c4_counterexample :
    ¬ ((iio_pci_domain_read_resources_on 0 sr_io_window []).filter
        (fun r => r.flags.kind == ResKind.ioKind)).length ≤ 1 := by
  decide

/-- C4 (amended): both calculators produce at most one discovered window
per address class, laid out in the fixed order I/O, memory-32, memory-64;
the standard-role calculator may additionally put the single legacy
subtractive I/O window ahead of all discovered windows. -/
theorem c4_window_classes_ordered (domain : Nat) (sr : STACK_RES) :
    (∃ l0 l1 l2 l3 : List Resource,
      iio_pci_domain_read_resources_on domain sr [] = l0 ++ l1 ++ l2 ++ l3 ∧
      l0.length ≤ 1 ∧ l1.length ≤ 1 ∧ l2.length ≤ 1 ∧ l3.length ≤ 1 ∧
      (∀ r ∈ l0, r = legacy_window) ∧
      (∀ r ∈ l1, r.flags.kind = ResKind.ioKind ∧ r.flags.subtractive = false ∧
        r.base = sr.PciResourceIoBase) ∧
      (∀ r ∈ l2, r.flags.kind = ResKind.memKind ∧ r.base = sr.PciResourceMem32Base) ∧
      (∀ r ∈ l3, r.flags.kind = ResKind.memKind ∧ r.base = sr.PciResourceMem64Base)) ∧
    (∃ m1 m2 m3 : List Resource,
      iio_cxl_domain_read_resources_on sr [] = m1 ++ m2 ++ m3 ∧
      m1.length ≤ 1 ∧ m2.length ≤ 1 ∧ m3.length ≤ 1 ∧
      (∀ r ∈ m1, r.flags.kind = ResKind.ioKind ∧ r.base = sr.IoBase) ∧
      (∀ r ∈ m2, r.flags.kind = ResKind.memKind ∧ r.base = sr.Mmio32Base) ∧
      (∀ r ∈ m3, r.flags.kind = ResKind.memKind ∧ r.base = sr.Mmio64Base)) := by
  constructor
  · rw [pci_on_nil_eq]
    unfold pci_windows
    refine ⟨_, _, _, _, rfl, ?_, std_win_part_length _ _ _ _,
      std_win_part_length _ _ _ _, std_win_part_length _ _ _ _, ?_, ?_, ?_, ?_⟩
    · split <;> simp
    · intro r hr; split at hr <;> simp_all
    · intro r hr; exact ⟨(mem_std_win_part hr).1, (mem_std_win_part hr).2.1,
        (mem_std_win_part hr).2.2.1⟩
    · intro r hr; exact ⟨(mem_std_win_part hr).1, (mem_std_win_part hr).2.2.1⟩
    · intro r hr; exact ⟨(mem_std_win_part hr).1, (mem_std_win_part hr).2.2.1⟩
  · rw [cxl_on_nil_eq]
    unfold cxl_windows
    refine ⟨_, _, _, rfl, cxl_win_part_length _ _ _ _, cxl_win_part_length _ _ _ _,
      cxl_win_part_length _ _ _ _, ?_, ?_, ?_⟩
    · intro r hr; exact ⟨(mem_cxl_win_part hr).1, (mem_cxl_win_part hr).2.2.1⟩
    · intro r hr; exact ⟨(mem_cxl_win_part hr).1, (mem_cxl_win_part hr).2.2.1⟩
    · intro r hr; exact ⟨(mem_cxl_win_part hr).1, (mem_cxl_win_part hr).2.2.1⟩

/-- C5: for every CXL-capable stack (with the asserted precondition
BusBase + 1 <= BusLimit), the builder creates exactly two domains: first
the single-bus domain on BusBase with the standard-role operations and
the PCIe label, then the domain spanning BusBase + 1 .. BusLimit with
the CXL-extension-role operations and the CXL label. -/
theorem c5_cxl_stack_two_domains (dp : xeon_domain_path) (sr : STACK_RES)
    (_h : sr.BusBase + 1 ≤ sr.BusLimit) :
    ∃ dA dB : device_domain,
      soc_create_cxl_domains dp sr = [dA, dB] ∧
      dA.secondary = sr.BusBase ∧ dA.subordinate = sr.BusBase ∧
      dA.max_subordinate = sr.BusBase ∧
      dA.ops = iio_pcie_domain_ops ∧ dA.acpi_name = DomainType.PCIE ∧
      dB.secondary = sr.BusBase + 1 ∧ dB.subordinate = sr.BusBase + 1 ∧
      dB.max_subordinate = sr.BusLimit ∧
      dB.ops = iio_cxl_domain_ops ∧ dB.acpi_name = DomainType.CXL :=
  ⟨_, _, rfl, rfl, rfl, rfl, rfl, rfl, rfl, rfl, rfl, rfl, rfl⟩

/-- A CXL-capable stack descriptor with buses 8 .. 10. -/
def sample_cxl_stack : STACK_RES :=
  { zero_stack_res with BusBase := 8, BusLimit := 10 }

/-- C5 witness: the theorem applied to the concrete stack with buses
8 .. 10. -/
theorem c5_cxl_stack_two_domains_witness :
    sample_cxl_stack.BusBase + 1 ≤ sample_cxl_stack.BusLimit ∧
    (∃ dA dB : device_domain,
      soc_create_cxl_domains ⟨0, 0⟩ sample_cxl_stack = [dA, dB] ∧
      dA.secondary = sample_cxl_stack.BusBase ∧
      dA.subordinate = sample_cxl_stack.BusBase ∧
      dA.max_subordinate = sample_cxl_stack.BusBase ∧
      dA.ops = iio_pcie_domain_ops ∧ dA.acpi_name = DomainType.PCIE ∧
      dB.secondary = sample_cxl_stack.BusBase + 1 ∧
      dB.subordinate = sample_cxl_stack.BusBase + 1 ∧
      dB.max_subordinate = sample_cxl_stack.BusLimit ∧
      dB.ops = iio_cxl_domain_ops ∧ dB.acpi_name = DomainType.CXL) :=
  ⟨by decide, c5_cxl_stack_two_domains ⟨0, 0⟩ sample_cxl_stack (by decide)⟩

/-- C6: for every management (UBOX) stack (with the asserted precondition
BusBase + 1 = BusLimit), the builder creates exactly two domains, each
spanning a single bus (BusBase and BusLimit respectively), carrying the
two distinct UBOX labels, and the read-resources behavior of either
domain leaves any device resource list unchanged, i.e. never emits a
window. -/
theorem c6_ubox_stack_two_noop_domains (dp : xeon_domain_path) (sr : STACK_RES)
    (_h : sr.BusBase + 1 = sr.BusLimit) :
    ∃ d1 d2 : device_domain,
      soc_create_ubox_domains dp sr = [d1, d2] ∧
      d1.secondary = sr.BusBase ∧ d1.subordinate = sr.BusBase ∧
      d1.max_subordinate = sr.BusBase ∧
      d2.secondary = sr.BusLimit ∧ d2.subordinate = sr.BusLimit ∧
      d2.max_subordinate = sr.BusLimit ∧
      d1.acpi_name = DomainType.UBX0 ∧ d2.acpi_name = DomainType.UBX1 ∧
      d1.acpi_name ≠ d2.acpi_name ∧
      (∀ hob dev rs, d1.ops.read_resources hob dev rs = rs) ∧
      (∀ hob dev rs, d2.ops.read_resources hob dev rs = rs) := by
  exact ⟨_, _, rfl, rfl, rfl, rfl, rfl, rfl, rfl, rfl, rfl,
    fun hcontra => DomainType.noConfusion hcontra,
    fun _ _ _ => rfl, fun _ _ _ => rfl⟩

/-- A management stack descriptor with buses 6 and 7. -/
def sample_ubox_stack : STACK_RES :=
  { zero_stack_res with BusBase := 6, BusLimit := 7 }

/-- C6 witness: the theorem applied to the concrete management stack with
buses 6 and 7. -/
theorem c6_ubox_stack_two_noop_domains_witness :
    sample_ubox_stack.BusBase + 1 = sample_ubox_stack.BusLimit ∧
    (∃ d1 d2 : device_domain,
      soc_create_ubox_domains ⟨0, 1⟩ sample_ubox_stack = [d1, d2] ∧
      d1.secondary = sample_ubox_stack.BusBase ∧
      d1.subordinate = sample_ubox_stack.BusBase ∧
      d1.max_subordinate = sample_ubox_stack.BusBase ∧
      d2.secondary = sample_ubox_stack.BusLimit ∧
      d2.subordinate = sample_ubox_stack.BusLimit ∧
      d2.max_subordinate = sample_ubox_stack.BusLimit ∧
      d1.acpi_name = DomainType.UBX0 ∧ d2.acpi_name = DomainType.UBX1 ∧
      d1.acpi_name ≠ d2.acpi_name ∧
      (∀ hob dev rs, d1.ops.read_resources hob dev rs = rs) ∧
      (∀ hob dev rs, d2.ops.read_resources hob dev rs = rs)) :=
  ⟨by decide, c6_ubox_stack_two_noop_domains ⟨0, 1⟩ sample_ubox_stack (by decide)⟩

/-- A PCIe stack descriptor with buses 0 .. 5. -/
def sample_pcie_stack : STACK_RES :=
  { zero_stack_res with BusBase := 0, BusLimit := 5 }

/-- C8 counterexample: the domain built for the PCIe stack with buses
0 .. 5 has secondary = subordinate = 0 but max_subordinate = 5, so the
three bus fields are not all equal to the bus base at creation time. -/
theorem c8_counterexample :
    (soc_create_pcie_domains ⟨0, 0⟩ sample_pcie_stack).map
        (fun d => (d.secondary, d.subordinate, d.max_subordinate)) = [(0, 0, 5)] ∧
    (5 : Nat) ≠ 0 :=
  ⟨rfl, by decide⟩

/-- C8 (amended): every domain created by the builder primitive starts
with secondary = subordinate = bus base and max_subordinate = bus limit
(the generic bus scan widens subordinate later). -/
theorem c8_initial_bus_fields (dp : xeon_domain_path) (bus_base bus_limit : Nat)
    (t : DomainType) (ops : device_operations) :
    (soc_create_domains dp bus_base bus_limit t ops).secondary = bus_base ∧
    (soc_create_domains dp bus_base bus_limit t ops).subordinate = bus_base ∧
    (soc_create_domains dp bus_base bus_limit t ops).max_subordinate = bus_limit :=
  ⟨rfl, rfl, rfl⟩

lemma pci_on_windows_idem (domain : Nat) (sr : STACK_RES) :
    iio_pci_domain_read_resources_on domain sr (pci_windows domain sr) =
      pci_windows domain sr := by
  unfold iio_pci_domain_read_resources_on pci_windows std_win_part
  split_ifs <;> rfl

lemma cxl_on_windows_idem (sr : STACK_RES) :
    iio_cxl_domain_read_resources_on sr (cxl_windows sr) = cxl_windows sr := by
  unfold iio_cxl_domain_read_resources_on cxl_windows cxl_win_part
  split_ifs <;> rfl

/-- C9: running either window calculator a second time on the same
domain/descriptor pair reuses the resources created by the first run
(same indices) and overwrites them with the same values, so the device's
window sequence after two invocations is identical to the sequence after
one. -/
theorem c9_read_resources_idempotent (hob : Option IIO_UDS) (dev : Nat) :
    iio_pci_domain_read_resources hob dev (iio_pci_domain_read_resources hob dev []) =
      iio_pci_domain_read_resources hob dev [] ∧
    iio_cxl_domain_read_resources hob dev (iio_cxl_domain_read_resources hob dev []) =
      iio_cxl_domain_read_resources hob dev [] := by
  cases hob with
  | none => exact ⟨rfl, rfl⟩
  | some h =>
    constructor
    · show iio_pci_domain_read_resources_on dev (h.stack_res (dn_socket dev) (dn_stack dev))
          (iio_pci_domain_read_resources_on dev (h.stack_res (dn_socket dev) (dn_stack dev)) []) =
        iio_pci_domain_read_resources_on dev (h.stack_res (dn_socket dev) (dn_stack dev)) []
      rw [pci_on_nil_eq, pci_on_windows_idem]
    · show iio_cxl_domain_read_resources_on (h.stack_res (dn_socket dev) (dn_stack dev))
          (iio_cxl_domain_read_resources_on (h.stack_res (dn_socket dev) (dn_stack dev)) []) =
        iio_cxl_domain_read_resources_on (h.stack_res (dn_socket dev) (dn_stack dev)) []
      rw [cxl_on_nil_eq, cxl_on_windows_idem]

/-- C10: with a non-NULL snapshot handle, the descriptor lookup always
yields a descriptor (the address of a stack-array element), so the
NULL-descriptor early-return branch of both read-resources behaviors is
unreachable and the window-emission body always runs. -/
theorem c10_lookup_never_null (u : IIO_UDS) (dev : Nat) (rs : List Resource) :
    domain_to_stack_res (some u) dev =
      some (u.stack_res (dn_socket dev) (dn_stack dev)) ∧
    iio_pci_domain_read_resources (some u) dev rs =
      iio_pci_domain_read_resources_on dev (u.stack_res (dn_socket dev) (dn_stack dev)) rs ∧
    iio_cxl_domain_read_resources (some u) dev rs =
      iio_cxl_domain_read_resources_on (u.stack_res (dn_socket dev) (dn_stack dev)) rs :=
  ⟨rfl, rfl, rfl⟩

lemma flatMap_erase_of_eq_nil {α β : Type} [DecidableEq α] (l : List α)
    (f : α → List β) (a : α) (h : f a = []) :
    l.flatMap f = (l.filter fun b => b ≠ a).flatMap f := by
  induction l with
  | nil => rfl
  | cons b t ih =>
    by_cases hb : b = a
    · subst hb
      simp [List.filter_cons, h, ih]
    · simp [List.filter_cons, hb, ih]

/-- C7: a stack slot whose descriptor has BusBase > BusLimit contributes
no domain at all, and the walker's output is exactly the concatenation of
the contributions of the remaining slots: the slot is skipped silently
and the walk continues, whatever the classifiers or the configuration
say. -/
theorem c7_empty_stack_skipped (env : soc_env) (h : IIO_UDS) (s x : Nat)
    (hbl : (h.stack_res s x).BusBase > (h.stack_res s x).BusLimit) :
    stack_domains env { socket := s, stack := x } (h.stack_res s x) = [] ∧
    attach_iio_stacks env (some h) =
      ((stack_pairs h).filter fun p => p ≠ (s, x)).flatMap
        (fun p => stack_domains env { socket := p.1, stack := p.2 }
          (h.stack_res p.1 p.2)) := by
  have h1 : stack_domains env { socket := s, stack := x } (h.stack_res s x) = [] := by
    unfold stack_domains
    rw [if_pos hbl]
  refine ⟨h1, ?_⟩
  show (stack_pairs h).flatMap _ = _
  exact flatMap_erase_of_eq_nil _ _ (s, x) h1

/-- A walker environment whose classifiers reject everything and whose
accelerator builder creates nothing; the configuration switches are
off. -/
def sample_env : soc_env :=
  { has_cxl := false, have_ioat := false,
    is_ubox_stack_res := fun _ => false,
    is_iio_cxl_stack_res := fun _ => false,
    is_pcie_iio_stack_res := fun _ => false,
    is_ioat_iio_stack_res := fun _ => false,
    soc_create_ioat_domains := fun _ _ => [] }

/-- A one-socket snapshot whose every stack slot carries the unused-slot
descriptor with BusBase 11 > BusLimit 10. -/
def sample_unused_hob : IIO_UDS :=
  { numofIIOs := 1,
    stack_res := fun _ _ => { zero_stack_res with BusBase := 11, BusLimit := 10 } }

/-- C7 witness: the theorem applied to the concrete snapshot whose slot
(0, 0) has BusBase 11 > BusLimit 10. -/
theorem c7_empty_stack_skipped_witness :
    (sample_unused_hob.stack_res 0 0).BusBase > (sample_unused_hob.stack_res 0 0).BusLimit ∧
    (stack_domains sample_env { socket := 0, stack := 0 } (sample_unused_hob.stack_res 0 0) = [] ∧
     attach_iio_stacks sample_env (some sample_unused_hob) =
       ((stack_pairs sample_unused_hob).filter fun p => p ≠ (0, 0)).flatMap
         (fun p => stack_domains sample_env { socket := p.1, stack := p.2 }
           (sample_unused_hob.stack_res p.1 p.2))) :=
  ⟨by decide, c7_empty_stack_skipped sample_env sample_unused_hob 0 0 (by decide)⟩
